import Mathlib

/-!
Verification development for the content-based recommendation core in
backend/app/recs.py. Python floats are modelled as rationals; the one
irrational operation, math.sqrt inside the cosine similarity, is modelled
with Real.sqrt, so similarity scores live in the real numbers. The
database is modelled as the list of rows of the joined feature view, and
the WHERE clause built by _fetch_candidates is modelled twice, faithfully
to the source: once as the literal predicate text plus bound-parameter
list (the strings the driver receives), and once as the boolean row
predicate those conditions denote (what the store returns).
-/

/-- Python str.strip(): drop leading and trailing whitespace. -/
def pyStrip (s : String) : String :=
  String.mk (((s.data.dropWhile Char.isWhitespace).reverse.dropWhile Char.isWhitespace).reverse)

/-- Python str.lower() on the ASCII tokens used by the genre map. -/
def pyLower (s : String) : String :=
  String.mk (s.data.map Char.toLower)

/-- Python str.replace of the single character "-" by a space. -/
def pyReplaceDashSpace (s : String) : String :=
  String.mk (s.data.map fun c => if c = '-' then ' ' else c)

/-- Helper for pySplitComma: accumulate the current field in reverse. -/
def splitCommaAux : List Char → List Char → List String
  | [], acc => [String.mk acc.reverse]
  | c :: cs, acc =>
    if c = ',' then String.mk acc.reverse :: splitCommaAux cs []
    else splitCommaAux cs (c :: acc)

/-- Python str.split(",") — always at least one field, empty fields kept. -/
def pySplitComma (s : String) : List String :=
  splitCommaAux s.data []

/-- The genre whitelist of recs.py (GENRE_TO_COL): user-facing genre token
to warehouse boolean column. -/
def GENRE_TO_COL : List (String × String) :=
  [("action", "g_action"),
   ("adventure", "g_adventure"),
   ("animation", "g_animation"),
   ("comedy", "g_comedy"),
   ("crime", "g_crime"),
   ("documentary", "g_documentary"),
   ("drama", "g_drama"),
   ("family", "g_family"),
   ("fantasy", "g_fantasy"),
   ("history", "g_history"),
   ("horror", "g_horror"),
   ("music", "g_music"),
   ("mystery", "g_mystery"),
   ("romance", "g_romance"),
   ("sci-fi", "g_scifi"),
   ("scifi", "g_scifi"),
   ("science fiction", "g_scifi"),
   ("tv movie", "g_tvmovie"),
   ("tvmovie", "g_tvmovie"),
   ("thriller", "g_thriller"),
   ("war", "g_war"),
   ("western", "g_western")]

/-- The genre-token resolution of _fetch_candidates: strip, lower, try the
hyphen-to-space normalised token, fall back to the merely lowered token,
then look the chosen token up in the whitelist. -/
def resolveGenre (g : String) : Option String :=
  let t0 := pyReplaceDashSpace (pyLower (pyStrip g))
  let token := if (List.lookup t0 GENRE_TO_COL).isSome then t0 else pyLower (pyStrip g)
  List.lookup token GENRE_TO_COL

/-- The list of whitelist columns a genre_any argument resolves to,
including the two Python truthiness guards (None and the empty list both
skip the genre filter). -/
def genreCols : Option (List String) → List String
  | none => []
  | some gs => if gs.isEmpty then [] else gs.filterMap resolveGenre

/-- The parsed title_types argument: None and "" give no filter, otherwise
split on commas and strip each field. -/
def typesOf : Option String → List String
  | none => []
  | some s => if s = "" then [] else (pySplitComma s).map pyStrip

/-- The comma-separated-parameter parsing done in recs_for_me for
genre_any, orig_lang_any and aka_region_any. -/
def parseCsv : Option String → Option (List String)
  | none => none
  | some s => if s = "" then none else some ((pySplitComma s).map pyStrip)

/-- The dot product of _cosine: sum over zip, which silently truncates to
the shorter operand. -/
def dotQ (a b : List ℚ) : ℚ :=
  ((a.zip b).map fun p => p.1 * p.2).sum

/-- The squared euclidean norm used by _cosine before math.sqrt. -/
def sumSq (a : List ℚ) : ℚ :=
  (a.map fun x => x * x).sum

/-- _cosine of recs.py: dot / (na * nb) with na, nb the euclidean norms,
and 0.0 when either norm is zero. -/
noncomputable def cosine (a b : List ℚ) : ℝ :=
  let na := Real.sqrt ((sumSq a : ℚ) : ℝ)
  let nb := Real.sqrt ((sumSq b : ℚ) : ℝ)
  if na = 0 ∨ nb = 0 then 0 else ((dotQ a b : ℚ) : ℝ) / (na * nb)

/-- A stored vector value as _ensure_vec receives it from psycopg: a
native list of numbers, a str/bytes/memoryview whose JSON parse yields a
list of numbers, or anything else (the fallback branch). -/
inductive StoredVec where
  | jlist (xs : List ℚ)
  | jtext (xs : List ℚ)
  | other
deriving DecidableEq

/-- _ensure_vec of recs.py: lists pass through unchanged, JSON text
decodes to its elements, anything else falls back to the empty list. No
branch checks the length against the request dimension. -/
def ensureVec : StoredVec → List ℚ
  | StoredVec.jlist xs => xs
  | StoredVec.jtext xs => xs
  | StoredVec.other => []

/-- One row of the joined candidate view (analytics.int_titles_features
joined with stg_title_basics and the aka rows reachable from it). The
genres field lists the g_* boolean columns that are TRUE for the row; the
akaLangs and akaRegions fields list the language and region values of the
aka rows of the title. -/
structure Row where
  tconst : String
  primary_title : String
  english_title : String
  start_year : Int
  average_rating : Option ℚ
  num_votes : Int
  titleType : String
  is_adult : Bool
  genres : List String
  akaLangs : List String
  akaRegions : List String
  stored_vec : StoredVec
deriving DecidableEq

/-- One seed row as _fetch_seeds returns it (tconst, weight, vec), the
vec already decoded by _as_vec. -/
structure Seed where
  tconst : String
  weight : ℚ
  vec : List ℚ
deriving DecidableEq

/-- The arguments of _fetch_candidates (everything after conn), in source
order. -/
structure Filters where
  since_year : Option Int
  min_votes : Int
  genre_any : Option (List String)
  exclude : List String
  title_types : Option String
  lang_any : Option (List String)
  region_any : Option (List String)
  include_adult : Bool
deriving DecidableEq

/-- The boolean predicate the WHERE clause built by _fetch_candidates
denotes on one row, clause by clause in source order: num_votes and
start_year thresholds, the adult guard, the genre OR-block over the
resolved whitelist columns, the tconst <> ALL exclusion, the titleType
filter, and the two EXISTS sub-predicates over aka languages/regions. -/
def rowPred (F : Filters) (r : Row) : Bool :=
  decide (F.min_votes ≤ r.num_votes) &&
  decide (F.since_year.getD 0 ≤ r.start_year) &&
  (F.include_adult || !r.is_adult) &&
  ((genreCols F.genre_any).isEmpty ||
    (genreCols F.genre_any).any fun c => decide (c ∈ r.genres)) &&
  (F.exclude.isEmpty || !decide (r.tconst ∈ F.exclude)) &&
  ((typesOf F.title_types).isEmpty || decide (r.titleType ∈ typesOf F.title_types)) &&
  ((F.lang_any.getD []).isEmpty || r.akaLangs.any fun l => decide (l ∈ F.lang_any.getD [])) &&
  ((F.region_any.getD []).isEmpty || r.akaRegions.any fun l => decide (l ∈ F.region_any.getD []))

/-- The candidate dict built per fetched row at the end of
_fetch_candidates, including _ensure_vec on the feature_vec column. -/
structure Cand where
  tconst : String
  primary_title : String
  english_title : String
  start_year : Int
  average_rating : Option ℚ
  num_votes : Int
  vec : List ℚ
deriving DecidableEq

/-- The row-to-dict conversion of _fetch_candidates. -/
def rowToCand (r : Row) : Cand :=
  ⟨r.tconst, r.primary_title, r.english_title, r.start_year,
   r.average_rating, r.num_votes, ensureVec r.stored_vec⟩

/-- _fetch_candidates, denotationally: the store returns every row of the
view satisfying the built predicate, converted to candidate dicts. -/
def fetchCandidates (db : List Row) (F : Filters) : List Cand :=
  (db.filter (rowPred F)).map rowToCand

/-- _build_pref_vector of recs.py: None on an empty seed list or a
non-positive total weight, otherwise the fold of the per-seed update
acc[i] += (weight / total) * vec[i] over i < k, with k the length of the
first seed vector. -/
def buildPrefVector (seeds : List Seed) : Option (List ℚ) :=
  match seeds with
  | [] => none
  | s0 :: rest =>
    let total := ((s0 :: rest).map Seed.weight).sum
    if total ≤ 0 then none
    else
      let k := s0.vec.length
      some ((s0 :: rest).foldl
        (fun acc s => (List.range k).map fun i => acc.getD i 0 + (s.weight / total) * s.vec.getD i 0)
        (List.replicate k 0))

/-- One entry of the scored list built in recs_for_me. -/
structure ScoredItem where
  tconst : String
  primary_title : String
  english_title : String
  start_year : Int
  average_rating : Option ℚ
  num_votes : Int
  score : ℝ

/-- The comparison realised by scored.sort(key=score, reverse=True):
x may come before y exactly when y.score ≤ x.score. -/
def scoreRel (x y : ScoredItem) : Prop := y.score ≤ x.score

noncomputable instance : DecidableRel scoreRel := fun a b => Real.decidableLE b.score a.score

instance : IsTotal ScoredItem scoreRel := ⟨fun a b => le_total b.score a.score⟩

instance : IsTrans ScoredItem scoreRel := ⟨fun _ _ _ h1 h2 => le_trans h2 h1⟩

/-- scored.sort(key=lambda x: x["score"], reverse=True): a stable sort
that orders by score descending and nothing else. Insertion sort realises
exactly the stable descending order CPython's stable sort produces. -/
noncomputable def sortScored (l : List ScoredItem) : List ScoredItem :=
  List.insertionSort scoreRel l

/-- An HTTPException as recs_for_me raises it. -/
structure HErr where
  status_code : Int
  detail : String
deriving DecidableEq

/-- The JSON body returned by recs_for_me on success. -/
structure RecsResponse where
  user_id : String
  count : Nat
  results : List ScoredItem

/-- The scored dict built per kept candidate in recs_for_me. -/
def mkScored (c : Cand) (sc : ℝ) : ScoredItem :=
  ⟨c.tconst, c.primary_title, c.english_title, c.start_year,
   c.average_rating, c.num_votes, sc⟩

/-- The scoring loop of recs_for_me: cosine each candidate against the
preference vector and keep exactly those with strictly positive score. -/
noncomputable def scoredOf (pref : List ℚ) (cands : List Cand) : List ScoredItem :=
  (cands.filter fun c => decide (0 < cosine pref c.vec)).map
    fun c => mkScored c (cosine pref c.vec)

/-- The /recs/for-me endpoint (recs_for_me), with the seed-table fetch for
the user and the candidate view passed in as data: 404 when the user has
no seed rows, 400 when the preference vector is None or empty, otherwise
fetch candidates with the seed tconsts as the exclusion list, keep the
candidates with strictly positive cosine score, sort by score descending
and return the first k. -/
noncomputable def recsForMe (db : List Row) (seeds : List Seed) (user_id : String)
    (k : Nat) (min_votes : Int) (since_year : Int)
    (genre_any : Option String) (title_types : Option String)
    (orig_lang_any : Option String) (aka_region_any : Option String)
    (include_adult : Bool) : Except HErr RecsResponse :=
  if seeds.isEmpty then
    Except.error ⟨404, "No seeds found for user_id=" ++ user_id ++
      ". Insert into analytics.int_user_seed_preferences first."⟩
  else
    match buildPrefVector seeds with
    | none => Except.error ⟨400, "Invalid seed weights or vectors"⟩
    | some pref =>
      if pref.isEmpty then Except.error ⟨400, "Invalid seed weights or vectors"⟩
      else
        let excl := seeds.map Seed.tconst
        let cands := fetchCandidates db
          ⟨some since_year, min_votes, parseCsv genre_any, excl, title_types,
           parseCsv orig_lang_any, parseCsv aka_region_any, include_adult⟩
        let scored := scoredOf pref cands
        let ranked := sortScored scored
        Except.ok ⟨user_id, (ranked.take k).length, ranked.take k⟩

/-- A bound query parameter as psycopg receives it from _fetch_candidates:
an integer, a string, or a list of strings. -/
inductive SqlParam where
  | pint (i : Int)
  | pstr (s : String)
  | plist (xs : List String)
deriving DecidableEq

/-- The FEATURE_JSON_SQL literal of recs.py (the shared feature-vector
expression), interpolated verbatim into every query. -/
def featureJsonSql : String :=
  "\njson_build_array(\n  COALESCE(f.f_year_norm::double precision, 0.0),\n  COALESCE(f.f_runtime_norm::double precision, 0.0),\n  COALESCE(f.f_rating_norm::double precision, 0.0),\n\n  (CASE WHEN f.g_action THEN 1 ELSE 0 END),\n  (CASE WHEN f.g_adventure THEN 1 ELSE 0 END),\n  (CASE WHEN f.g_animation THEN 1 ELSE 0 END),\n  (CASE WHEN f.g_comedy THEN 1 ELSE 0 END),\n  (CASE WHEN f.g_crime THEN 1 ELSE 0 END),\n  (CASE WHEN f.g_documentary THEN 1 ELSE 0 END),\n  (CASE WHEN f.g_drama THEN 1 ELSE 0 END),\n  (CASE WHEN f.g_family THEN 1 ELSE 0 END),\n  (CASE WHEN f.g_fantasy THEN 1 ELSE 0 END),\n  (CASE WHEN f.g_history THEN 1 ELSE 0 END),\n  (CASE WHEN f.g_horror THEN 1 ELSE 0 END),\n  (CASE WHEN f.g_music THEN 1 ELSE 0 END),\n  (CASE WHEN f.g_mystery THEN 1 ELSE 0 END),\n  (CASE WHEN f.g_romance THEN 1 ELSE 0 END),\n  (CASE WHEN f.g_scifi THEN 1 ELSE 0 END),\n  (CASE WHEN f.g_tvmovie THEN 1 ELSE 0 END),\n  (CASE WHEN f.g_thriller THEN 1 ELSE 0 END),\n  (CASE WHEN f.g_war THEN 1 ELSE 0 END),\n  (CASE WHEN f.g_western THEN 1 ELSE 0 END)\n) AS feature_vec\n"

/-- The EXISTS sub-predicate text appended for a language filter. -/
def akaLangSql : String :=
  "\n            EXISTS (\n              SELECT 1 FROM stg_title_akas a\n               WHERE a.\"titleId\" = f.tconst\n                 AND a.language = ANY(%s)\n            )\n        "

/-- The EXISTS sub-predicate text appended for a region filter. -/
def akaRegionSql : String :=
  "\n            EXISTS (\n              SELECT 1 FROM stg_title_akas a\n               WHERE a.\"titleId\" = f.tconst\n                 AND a.region = ANY(%s)\n            )\n        "

/-- The genre OR fragments built inside _fetch_candidates: one
"f.<col> = TRUE" per token the whitelist resolves; tokens the whitelist
does not resolve contribute nothing. -/
def genreOrs (gs : List String) : List String :=
  gs.filterMap fun g => (resolveGenre g).map fun col => "f." ++ col ++ " = TRUE"

/-- The genre clause of the where list: nothing when genre_any is falsy
or no token resolves, otherwise the parenthesised OR of the resolved
fragments. -/
def genreWhere (go : Option (List String)) : List String :=
  match go with
  | none => []
  | some gs =>
    if gs.isEmpty then []
    else
      let ors := genreOrs gs
      if ors.isEmpty then [] else ["(" ++ String.intercalate " OR " ors ++ ")"]

/-- The where list built by _fetch_candidates, clause strings in source
order. Per-request values never appear: every clause carries only %s
placeholders and whitelist column names. -/
def whereClauses (F : Filters) : List String :=
  ["f.num_votes >= %s", "f.start_year >= %s"]
  ++ (if F.include_adult then [] else ["COALESCE(f.f_is_adult, false) = false"])
  ++ genreWhere F.genre_any
  ++ (if F.exclude.isEmpty then [] else ["f.tconst <> ALL(%s)"])
  ++ (let aka := (if (F.lang_any.getD []).isEmpty then [] else [akaLangSql])
        ++ (if (F.region_any.getD []).isEmpty then [] else [akaRegionSql])
      if aka.isEmpty then [] else ["(" ++ String.intercalate " AND " aka ++ ")"])

/-- The title_filter_sql fragment: one placeholder for one type, an IN
list of placeholders for several, nothing otherwise. -/
def titleFilterSql (tt : Option String) : String :=
  let ts := typesOf tt
  if ts.isEmpty then ""
  else if ts.length = 1 then " AND b.\"titleType\" = %s"
  else " AND b.\"titleType\" IN (" ++ String.intercalate "," (ts.map fun _ => "%s") ++ ")"

/-- The full query text cur.execute receives from _fetch_candidates. -/
def sqlText (F : Filters) : String :=
  "\n        SELECT\n          f.tconst,\n          f.primary_title,\n          f.english_title,\n          f.start_year,\n          f.average_rating,\n          f.num_votes,\n          " ++ featureJsonSql ++ "\n        FROM analytics.int_titles_features f\n        JOIN stg_title_basics b ON b.tconst = f.tconst\n        WHERE " ++ String.intercalate " AND " (whereClauses F) ++ "\n        " ++ titleFilterSql F.title_types ++ "\n    "

/-- The bound parameters cur.execute receives, in source append order:
min_votes, since_year, the exclusion array, the title types, the language
array, the region array. -/
def sqlParams (F : Filters) : List SqlParam :=
  [SqlParam.pint F.min_votes, SqlParam.pint (F.since_year.getD 0)]
  ++ (if F.exclude.isEmpty then [] else [SqlParam.plist F.exclude])
  ++ (let ts := typesOf F.title_types
      if ts.isEmpty then []
      else if ts.length = 1 then [SqlParam.pstr (ts.headD "")]
      else ts.map SqlParam.pstr)
  ++ (if (F.lang_any.getD []).isEmpty then [] else [SqlParam.plist (F.lang_any.getD [])])
  ++ (if (F.region_any.getD []).isEmpty then [] else [SqlParam.plist (F.region_any.getD [])])

/-- One operation performed on the database cursor. -/
inductive CursorOp where
  | execute (sql : String) (ps : List SqlParam)
  | fetchmany (n : Nat)
  | fetchall
deriving DecidableEq

/-- The cursor operations _fetch_candidates performs, in order: a single
execute of the built query followed by a single fetchall that returns the
whole result set (lines 260-262 of recs.py). -/
def fetchCandidatesCursorOps (F : Filters) : List CursorOp :=
  [CursorOp.execute (sqlText F) (sqlParams F), CursorOp.fetchall]

/-! ### Helper lemmas -/

theorem getD_map_range (f : ℕ → ℚ) {k i : ℕ} (hi : i < k) :
    ((List.range k).map f).getD i 0 = f i := by
  rw [List.getD_eq_getElem _ _ (by simpa using hi)]
  simp

theorem getD_replicate_zero (k i : ℕ) : (List.replicate k (0 : ℚ)).getD i 0 = 0 := by
  by_cases h : i < k
  · rw [List.getD_eq_getElem _ _ (by simpa using h)]
    simp
  · exact List.getD_eq_default _ _ (by simpa using not_lt.mp h)

theorem prefFold_length (total : ℚ) (k : ℕ) (l : List Seed) (acc : List ℚ)
    (hacc : acc.length = k) :
    (l.foldl (fun acc s =>
      (List.range k).map fun i => acc.getD i 0 + (s.weight / total) * s.vec.getD i 0) acc).length
      = k := by
  induction l generalizing acc with
  | nil => exact hacc
  | cons s l ih => exact ih _ (by simp)

theorem prefFold_coord (total : ℚ) (k : ℕ) (l : List Seed) (acc : List ℚ)
    (hacc : acc.length = k) {i : ℕ} (hi : i < k) :
    (l.foldl (fun acc s =>
      (List.range k).map fun i => acc.getD i 0 + (s.weight / total) * s.vec.getD i 0) acc).getD i 0
      = acc.getD i 0 + (l.map fun s => (s.weight / total) * s.vec.getD i 0).sum := by
  induction l generalizing acc with
  | nil => simp
  | cons s l ih =>
    rw [List.foldl_cons, ih _ (by simp), getD_map_range _ hi]
    simp [add_assoc]

/-! ### C1: the preference vector is the weighted centroid -/

/-- C1: for every non-empty seed list whose weights sum to a strictly
positive total (with all seed vectors of the dimension of the first, the
per-request dimension invariant under which the source loop is defined),
_build_pref_vector returns exactly the weighted centroid: coordinate i is
the sum over the seeds of (weight / total_weight) * vec[i], component-wise
with no further normalisation of the result. -/
theorem c1_pref_vector_is_weighted_centroid (s0 : Seed) (rest : List Seed)
    (htotal : 0 < ((s0 :: rest).map Seed.weight).sum)
    (_hdim : ∀ s ∈ s0 :: rest, s.vec.length = s0.vec.length) :
    ∃ v, buildPrefVector (s0 :: rest) = some v ∧ v.length = s0.vec.length ∧
      ∀ i < s0.vec.length, v.getD i 0 =
        ((s0 :: rest).map fun s =>
          (s.weight / ((s0 :: rest).map Seed.weight).sum) * s.vec.getD i 0).sum := by
  have hne : ¬ ((s0 :: rest).map Seed.weight).sum ≤ 0 := not_le.mpr htotal
  refine ⟨(s0 :: rest).foldl
      (fun acc s => (List.range s0.vec.length).map fun i =>
        acc.getD i 0 + (s.weight / ((s0 :: rest).map Seed.weight).sum) * s.vec.getD i 0)
      (List.replicate s0.vec.length 0), ?_, ?_, ?_⟩
  · simp only [buildPrefVector]
    rw [if_neg hne]
  · exact prefFold_length _ _ _ _ (List.length_replicate _ _)
  · intro i hi
    rw [prefFold_coord _ _ _ _ (List.length_replicate _ _) hi, getD_replicate_zero, zero_add]

/-- Witness for C1 at the spec scenario: seeds of weights 2 and 1 with
vectors [1,0] and [0,1] give the preference vector [2/3, 1/3]. -/
theorem c1_witness :
    (0 : ℚ) < (([⟨"tt0001", 2, [1, 0]⟩, ⟨"tt0002", 1, [0, 1]⟩] : List Seed).map Seed.weight).sum ∧
    ∃ v, buildPrefVector [⟨"tt0001", 2, [1, 0]⟩, ⟨"tt0002", 1, [0, 1]⟩] = some v ∧
      v.getD 0 0 = 2 / 3 ∧ v.getD 1 0 = 1 / 3 := by
  have ht : (0 : ℚ) <
      (([⟨"tt0001", 2, [1, 0]⟩, ⟨"tt0002", 1, [0, 1]⟩] : List Seed).map Seed.weight).sum := by
    norm_num
  obtain ⟨v, hv, hlen, hco⟩ := c1_pref_vector_is_weighted_centroid ⟨"tt0001", 2, [1, 0]⟩
    [⟨"tt0002", 1, [0, 1]⟩] ht (by simp)
  refine ⟨ht, v, hv, ?_, ?_⟩
  · rw [hco 0 (by norm_num)]
    norm_num
  · rw [hco 1 (by norm_num)]
    norm_num

/-! ### C6: zero-norm safety of the cosine -/

theorem sumSq_nonneg (a : List ℚ) : 0 ≤ sumSq a := by
  refine List.sum_nonneg ?_
  intro x hx
  rcases List.mem_map.mp hx with ⟨y, -, rfl⟩
  exact mul_self_nonneg y

/-- C6: when either operand of _cosine has norm zero (in particular for
the all-zero vector) the function returns exactly 0.0; otherwise the
denominator na * nb is provably nonzero and the result is the plain
quotient, so the division is always well defined and the function total. -/
theorem c6_cosine_zero_norm_is_zero (a b : List ℚ) :
    ((sumSq a = 0 ∨ sumSq b = 0) → cosine a b = 0) ∧
    (sumSq a ≠ 0 → sumSq b ≠ 0 →
      Real.sqrt ((sumSq a : ℚ) : ℝ) * Real.sqrt ((sumSq b : ℚ) : ℝ) ≠ 0 ∧
      cosine a b = ((dotQ a b : ℚ) : ℝ) /
        (Real.sqrt ((sumSq a : ℚ) : ℝ) * Real.sqrt ((sumSq b : ℚ) : ℝ))) := by
  constructor
  · rintro (h | h) <;> simp [cosine, h]
  · intro ha hb
    have ha2 : (0 : ℝ) < ((sumSq a : ℚ) : ℝ) := by
      exact_mod_cast lt_of_le_of_ne (sumSq_nonneg a) (Ne.symm ha)
    have hb2 : (0 : ℝ) < ((sumSq b : ℚ) : ℝ) := by
      exact_mod_cast lt_of_le_of_ne (sumSq_nonneg b) (Ne.symm hb)
    have hsa : Real.sqrt ((sumSq a : ℚ) : ℝ) ≠ 0 := ne_of_gt (Real.sqrt_pos.mpr ha2)
    have hsb : Real.sqrt ((sumSq b : ℚ) : ℝ) ≠ 0 := ne_of_gt (Real.sqrt_pos.mpr hb2)
    refine ⟨mul_ne_zero hsa hsb, ?_⟩
    simp only [cosine]
    rw [if_neg]
    push_neg
    exact ⟨hsa, hsb⟩

/-- Witness for C6: the all-zero vector against [3, 4] scores exactly 0. -/
theorem c6_witness : sumSq [0, 0] = 0 ∧ cosine [0, 0] [3, 4] = 0 := by
  have h0 : sumSq ([0, 0] : List ℚ) = 0 := by norm_num [sumSq]
  exact ⟨h0, (c6_cosine_zero_norm_is_zero [0, 0] [3, 4]).1 (Or.inl h0)⟩

/-! ### C4: no length validation on stored vectors -/

theorem zip_take_take (a b : List ℚ) :
    a.zip b = (a.take b.length).zip (b.take a.length) := by
  induction a generalizing b with
  | nil => simp
  | cons x a ih =>
    cases b with
    | nil => simp
    | cons y b => simp [ih b]

/-- C4 counterexample: a stored vector of length 2 decodes without any
error to a length-2 list for a request whose preference vector has length
3, and _cosine happily scores that mismatched candidate (here to the
score 1) instead of failing: nothing in the pipeline rejects a vector
whose length disagrees with the request dimension. -/
theorem c4_counterexample :
    ensureVec (StoredVec.jlist [1, 2]) = [1, 2] ∧
    (ensureVec (StoredVec.jlist [1, 2])).length ≠ 3 ∧
    cosine [1, 0, 0] (ensureVec (StoredVec.jlist [2, 0])) = 1 := by
  refine ⟨rfl, by norm_num [ensureVec], ?_⟩
  have h4 : Real.sqrt (((4 : ℚ) : ℝ)) = 2 := by
    rw [show (((4 : ℚ)) : ℝ) = 2 ^ 2 by norm_num]
    exact Real.sqrt_sq (by norm_num)
  have h1 : Real.sqrt (((1 : ℚ) : ℝ)) = 1 := by
    rw [show (((1 : ℚ)) : ℝ) = 1 by norm_num]
    exact Real.sqrt_one
  have hsa : sumSq [1, 0, 0] = 1 := by norm_num [sumSq]
  have hsb : sumSq [2, 0] = 4 := by norm_num [sumSq]
  have hd : dotQ [1, 0, 0] [2, 0] = 2 := by norm_num [dotQ]
  simp only [ensureVec, cosine, hsa, hsb, hd, h4, h1]
  norm_num

/-- C4 amended: decoding performs no length validation at all —
_ensure_vec returns exactly the elements the stored value decodes to,
whatever their number, and the dot product inside _cosine silently zips
the operands down to the shorter length, so mismatched vectors are scored
on their common prefix rather than rejected with a MalformedVector
error. -/
theorem c4_amended_no_length_validation (l a b : List ℚ) :
    ensureVec (StoredVec.jlist l) = l ∧
    ensureVec (StoredVec.jtext l) = l ∧
    dotQ a b = dotQ (a.take b.length) (b.take a.length) := by
  refine ⟨rfl, rfl, ?_⟩
  unfold dotQ
  rw [← zip_take_take]

/-! ### C5: the sort uses the score alone -/

theorem filter_orderedInsert_score (c : ℝ) (a : ScoredItem) (L : List ScoredItem) :
    (List.orderedInsert scoreRel a L).filter (fun x => decide (x.score = c)) =
      if a.score = c then a :: L.filter (fun x => decide (x.score = c))
      else L.filter (fun x => decide (x.score = c)) := by
  induction L with
  | nil => by_cases h : a.score = c <;> simp [List.orderedInsert, List.filter_cons, h]
  | cons b L ih =>
    by_cases hab : scoreRel a b
    · simp only [List.orderedInsert, if_pos hab]
      by_cases h : a.score = c <;> simp [List.filter_cons, h]
    · simp only [List.orderedInsert, if_neg hab]
      have hba : a.score < b.score := not_le.mp hab
      by_cases hbc : b.score = c
      · by_cases hac : a.score = c
        · exact absurd (hac.trans hbc.symm) (ne_of_lt hba)
        · simp [List.filter_cons, hbc, hac, ih]
      · by_cases hac : a.score = c <;> simp [List.filter_cons, hbc, hac, ih]

theorem filter_sortScored_score (c : ℝ) (l : List ScoredItem) :
    (sortScored l).filter (fun x => decide (x.score = c)) =
      l.filter (fun x => decide (x.score = c)) := by
  induction l with
  | nil => rfl
  | cons a l ih =>
    simp only [sortScored, List.insertionSort] at *
    rw [filter_orderedInsert_score]
    by_cases h : a.score = c <;> simp [List.filter_cons, h, ih]

/-- C5 amended: the returned ranking is the input scored list sorted by
similarity score descending alone and truncated to the first k entries;
the sort is stable, so candidates with equal score keep their original
candidate order — average rating and vote count play no role in the
ordering. -/
theorem c5_amended_sort_by_score_only (l : List ScoredItem) (k : Nat) :
    List.Sorted scoreRel ((sortScored l).take k) ∧
    ((sortScored l).take k).length ≤ k ∧
    (sortScored l).Perm l ∧
    ∀ c : ℝ, (sortScored l).filter (fun x => decide (x.score = c)) =
      l.filter (fun x => decide (x.score = c)) := by
  refine ⟨?_, ?_, List.perm_insertionSort scoreRel l, fun c => filter_sortScored_score c l⟩
  · exact List.Pairwise.sublist (List.take_sublist k _) (List.sorted_insertionSort scoreRel l)
  · rw [List.length_take]
    exact min_le_left _ _

/-- The lower-rated, lower-voted of two candidates tying at score 1/2. -/
noncomputable def tieLow : ScoredItem := ⟨"tta", "A", "A", 2000, some 1, 10, (1 : ℝ) / 2⟩

/-- The higher-rated, higher-voted of two candidates tying at score 1/2. -/
noncomputable def tieHigh : ScoredItem := ⟨"ttb", "B", "B", 2001, some 9, 500, (1 : ℝ) / 2⟩

/-- C5 counterexample: two candidates tie at score 1/2, the first listed
has the far lower rating (1 vs 9) and vote count (10 vs 500), yet the sort
of recs_for_me leaves them in input order: the claimed rating-then-votes
descending tie-break would have to put the higher-rated candidate first,
but the source sorts by score alone. -/
theorem c5_counterexample :
    sortScored [tieLow, tieHigh] = [tieLow, tieHigh] ∧
    tieLow.score = tieHigh.score ∧
    tieLow.average_rating = some 1 ∧ tieHigh.average_rating = some 9 ∧
    tieLow.num_votes = 10 ∧ tieHigh.num_votes = 500 := by
  have h : scoreRel tieLow tieHigh := by simp [scoreRel, tieLow, tieHigh]
  refine ⟨?_, rfl, rfl, rfl, rfl, rfl⟩
  simp only [sortScored, List.insertionSort, List.orderedInsert, if_pos h]

/-! ### C7: the candidate fetch materializes the whole result set -/

/-- C7 counterexample: the cursor-operation sequence _fetch_candidates
performs (a single execute followed by a single fetchall, lines 260-262)
contains a fetchall and no bounded fetchmany of any page size, for a
concrete default request: the fetch is not a batched, bounded-page
cursor. -/
theorem c7_counterexample :
    CursorOp.fetchall ∈
      fetchCandidatesCursorOps ⟨some 1900, 100, none, ["tt0001"], some "movie", none, none, false⟩ ∧
    ∀ n, CursorOp.fetchmany n ∉
      fetchCandidatesCursorOps ⟨some 1900, 100, none, ["tt0001"], some "movie", none, none, false⟩ := by
  constructor
  · simp [fetchCandidatesCursorOps]
  · intro n
    simp [fetchCandidatesCursorOps]

/-- C7 amended: the scoring stage retrieves candidates with one execute
and one unbounded fetchall — never a bounded fetchmany — and the list it
returns materializes the entire matching result set: every row of the
store that satisfies the predicate is in the returned list. -/
theorem c7_amended_fetchall_materializes (db : List Row) (F : Filters) (r : Row)
    (hr : r ∈ db) (hp : rowPred F r = true) :
    (∀ n, CursorOp.fetchmany n ∉ fetchCandidatesCursorOps F) ∧
    CursorOp.fetchall ∈ fetchCandidatesCursorOps F ∧
    rowToCand r ∈ fetchCandidates db F := by
  refine ⟨?_, ?_, ?_⟩
  · intro n
    simp [fetchCandidatesCursorOps]
  · simp [fetchCandidatesCursorOps]
  · exact List.mem_map_of_mem _ (List.mem_filter.mpr ⟨hr, hp⟩)

/-- A row of the candidate view matching demoFilters. -/
def demoRow : Row :=
  ⟨"tt0002", "Demo", "Demo", 2000, some 7, 1000, "movie", false,
   ["g_drama"], ["en"], ["US"], StoredVec.jlist [1]⟩

/-- A concrete filter set: endpoint defaults plus one excluded seed. -/
def demoFilters : Filters :=
  ⟨some 1900, 100, none, ["tt0001"], some "movie", none, none, false⟩

/-- Witness for C7 amended at a one-row store whose row matches. -/
theorem c7_witness :
    rowPred demoFilters demoRow = true ∧
    rowToCand demoRow ∈ fetchCandidates [demoRow] demoFilters := by
  have hp : rowPred demoFilters demoRow = true := by decide
  exact ⟨hp,
    (c7_amended_fetchall_materializes [demoRow] demoFilters demoRow (by simp) hp).2.2⟩

/-! ### C9: missing seeds give a 404 before any candidate work -/

/-- C9: when the seed fetch for the user returns zero rows, recs_for_me
fails with HTTP status 404 and a detail that contains the phrase
"No seeds found"; the outcome is identical for every candidate store, so
the failure precedes all candidate fetching and scoring. -/
theorem c9_no_seeds_404 (db db2 : List Row) (uid : String) (k : Nat)
    (mv sy : Int) (g tt la ra : Option String) (ia : Bool) :
    recsForMe db [] uid k mv sy g tt la ra ia =
      Except.error ⟨404, "No seeds found for user_id=" ++ uid ++
        ". Insert into analytics.int_user_seed_preferences first."⟩ ∧
    recsForMe db [] uid k mv sy g tt la ra ia =
      recsForMe db2 [] uid k mv sy g tt la ra ia ∧
    ∃ s1 s2, "No seeds found for user_id=" ++ uid ++
        ". Insert into analytics.int_user_seed_preferences first." =
      s1 ++ "No seeds found" ++ s2 := by
  refine ⟨?_, ?_, "",
    " for user_id=" ++ uid ++ ". Insert into analytics.int_user_seed_preferences first.", ?_⟩
  · simp [recsForMe]
  · simp [recsForMe]
  · apply String.ext
    simp [String.data_append, List.append_assoc]

/-! ### C3: the predicate text never contains raw request values -/

theorem lookup_mem_values (a : String) (l : List (String × String)) (b : String)
    (h : List.lookup a l = some b) : b ∈ l.map Prod.snd := by
  induction l with
  | nil => simp [List.lookup] at h
  | cons p l ih =>
    cases p with
    | mk key v =>
      by_cases hk : a == key
      · simp [List.lookup, hk] at h
        simp [h]
      · simp [List.lookup, hk] at h
        simp [ih h]

theorem resolveGenre_mem_values (g col : String) (h : resolveGenre g = some col) :
    col ∈ GENRE_TO_COL.map Prod.snd := by
  simp only [resolveGenre] at h
  exact lookup_mem_values _ _ _ h

theorem genreOrs_eq_map_cols (gs : List String) :
    genreOrs gs = (gs.filterMap resolveGenre).map fun col => "f." ++ col ++ " = TRUE" := by
  simp [genreOrs, List.map_filterMap]

theorem genreWhere_eq_of_cols (go : Option (List String)) :
    genreWhere go =
      (if (genreCols go).isEmpty then []
       else ["(" ++ String.intercalate " OR "
          ((genreCols go).map fun col => "f." ++ col ++ " = TRUE") ++ ")"]) := by
  cases go with
  | none => simp [genreWhere, genreCols]
  | some gs =>
    by_cases h : gs.isEmpty
    · simp [genreWhere, genreCols, h]
    · simp only [genreWhere, genreCols, h, if_neg, Bool.false_eq_true, if_false]
      rw [genreOrs_eq_map_cols]
      cases hfm : gs.filterMap resolveGenre with
      | nil => simp
      | cons c cs => simp

theorem titleFilterSql_eq_of_length (t1 t2 : Option String)
    (h : (typesOf t1).length = (typesOf t2).length) :
    titleFilterSql t1 = titleFilterSql t2 := by
  have hie : (typesOf t1).isEmpty = (typesOf t2).isEmpty := by
    cases h1 : typesOf t1 <;> cases h2 : typesOf t2 <;> simp_all
  have hmap : (typesOf t1).map (fun _ => "%s") = (typesOf t2).map (fun _ => "%s") := by
    rw [List.map_const', List.map_const', h]
  simp only [titleFilterSql]
  rw [hie, hmap, h]

/-- C3: the query text built by _fetch_candidates depends only on what
the whitelists resolve, never on the raw request strings. Two filter sets
with the same adult flag, the same whitelist-resolved genre columns, the
same emptiness of the exclusion list, the same number of title types and
the same presence of language/region filters produce identical predicate
text — so a non-whitelisted attacker-controlled string changes nothing.
Moreover a token the whitelist does not resolve contributes no fragment
at all, and every column name embedded in a genre fragment is a value of
the closed GENRE_TO_COL map. -/
theorem c3_sql_text_whitelisted (F1 F2 : Filters)
    (hadult : F1.include_adult = F2.include_adult)
    (hgen : genreCols F1.genre_any = genreCols F2.genre_any)
    (hexc : F1.exclude.isEmpty = F2.exclude.isEmpty)
    (htt : (typesOf F1.title_types).length = (typesOf F2.title_types).length)
    (hla : (F1.lang_any.getD []).isEmpty = (F2.lang_any.getD []).isEmpty)
    (hre : (F1.region_any.getD []).isEmpty = (F2.region_any.getD []).isEmpty) :
    sqlText F1 = sqlText F2 ∧
    (∀ g gs, resolveGenre g = none → genreOrs (g :: gs) = genreOrs gs) ∧
    (∀ col ∈ genreCols F1.genre_any, col ∈ GENRE_TO_COL.map Prod.snd) := by
  refine ⟨?_, ?_, ?_⟩
  · have hw : whereClauses F1 = whereClauses F2 := by
      simp only [whereClauses, genreWhere_eq_of_cols]
      rw [hadult, hgen, hexc, hla, hre]
    simp only [sqlText]
    rw [hw, titleFilterSql_eq_of_length _ _ htt]
  · intro g gs hg
    simp [genreOrs, List.filterMap_cons, hg]
  · intro col hcol
    cases hga : F1.genre_any with
    | none => rw [hga] at hcol; simp [genreCols] at hcol
    | some gs =>
      rw [hga] at hcol
      by_cases h : gs.isEmpty
      · simp [genreCols, h] at hcol
      · simp only [genreCols, h, Bool.false_eq_true, if_false] at hcol
        rcases List.mem_filterMap.mp hcol with ⟨g, -, hres⟩
        exact resolveGenre_mem_values g col hres

/-- Witness for C3: the second request carries an extra attacker string
as a genre token and different (bound-parameter) exclusion, title type
and language values; the produced query text is identical. -/
theorem c3_witness :
    genreCols (some ["drama"]) =
      genreCols (some ["drama", "Robert); DROP TABLE students;--"]) ∧
    sqlText ⟨some 1900, 100, some ["drama"], ["tt0001"], some "movie",
      some ["en"], none, false⟩ =
    sqlText ⟨some 2000, 50, some ["drama", "Robert); DROP TABLE students;--"],
      ["tt0009"], some "short", some ["fr"], none, false⟩ := by
  have hg : genreCols (some ["drama"]) =
      genreCols (some ["drama", "Robert); DROP TABLE students;--"]) := by decide
  exact ⟨hg,
    (c3_sql_text_whitelisted
      ⟨some 1900, 100, some ["drama"], ["tt0001"], some "movie", some ["en"], none, false⟩
      ⟨some 2000, 50, some ["drama", "Robert); DROP TABLE students;--"],
        ["tt0009"], some "short", some ["fr"], none, false⟩
      rfl hg (by decide) (by decide) (by decide) (by decide)).1⟩

/-! ### C8: genre alias equivalence -/

/-- C8: "Sci-Fi" and "Science Fiction" both resolve through the whitelist
to the same column g_scifi, so two otherwise identical requests filtering
on the two spellings select exactly the same candidate set from every
store. -/
theorem c8_scifi_alias_equivalence (db : List Row) (sy : Option Int) (mv : Int)
    (excl : List String) (la ra : Option (List String))
    (tty : Option String) (ia : Bool) :
    resolveGenre "Sci-Fi" = some "g_scifi" ∧
    resolveGenre "Science Fiction" = some "g_scifi" ∧
    fetchCandidates db ⟨sy, mv, some ["Sci-Fi"], excl, tty, la, ra, ia⟩ =
      fetchCandidates db ⟨sy, mv, some ["Science Fiction"], excl, tty, la, ra, ia⟩ := by
  refine ⟨by decide, by decide, ?_⟩
  have hc : genreCols (some ["Sci-Fi"]) = genreCols (some ["Science Fiction"]) := by decide
  unfold fetchCandidates
  exact congrArg (List.map rowToCand)
    (List.filter_congr fun r _ => by simp only [rowPred, hc])

/-! ### The successful branch of recs_for_me -/

theorem recsForMe_ok (db : List Row) (seeds : List Seed) (uid : String) (k : Nat)
    (mv sy : Int) (g tty la ra : Option String) (ia : Bool)
    (s0 : Seed) (rest : List Seed) (hseeds : seeds = s0 :: rest)
    (pref : List ℚ) (hbp : buildPrefVector seeds = some pref)
    (hpe : pref.isEmpty = false) :
    recsForMe db seeds uid k mv sy g tty la ra ia =
      Except.ok ⟨uid,
        ((sortScored (scoredOf pref (fetchCandidates db
          ⟨some sy, mv, parseCsv g, seeds.map Seed.tconst, tty,
           parseCsv la, parseCsv ra, ia⟩))).take k).length,
        (sortScored (scoredOf pref (fetchCandidates db
          ⟨some sy, mv, parseCsv g, seeds.map Seed.tconst, tty,
           parseCsv la, parseCsv ra, ia⟩))).take k⟩ := by
  subst hseeds
  simp [recsForMe, hbp, hpe]

/-! ### C2: no seed ever appears among the results -/

/-- C2: for every request that succeeds, no item in the returned results
carries a tconst of the seed set: recs_for_me passes the full seed tconst
list as the exclusion list of _fetch_candidates, whose tconst <> ALL
clause removes every such row before scoring. -/
theorem c2_no_seed_in_results (db : List Row) (seeds : List Seed) (uid : String)
    (k : Nat) (mv sy : Int) (g tty la ra : Option String) (ia : Bool)
    (resp : RecsResponse)
    (hok : recsForMe db seeds uid k mv sy g tty la ra ia = Except.ok resp) :
    ∀ item ∈ resp.results, item.tconst ∉ seeds.map Seed.tconst := by
  intro item hitem
  cases seeds with
  | nil => simp [recsForMe] at hok
  | cons s0 rest =>
    cases hbp : buildPrefVector (s0 :: rest) with
    | none => simp [recsForMe, hbp] at hok
    | some pref =>
      cases pref with
      | nil => simp [recsForMe, hbp] at hok
      | cons p0 ps =>
        rw [recsForMe_ok db (s0 :: rest) uid k mv sy g tty la ra ia s0 rest rfl
          (p0 :: ps) hbp rfl] at hok
        have hres := (Except.ok.inj hok).symm
        rw [hres] at hitem
        simp only [RecsResponse.mk.injEq] at hitem
        have h1 := List.mem_of_mem_take hitem
        have h2 := (List.perm_insertionSort scoreRel _).subset h1
        simp only [scoredOf] at h2
        rcases List.mem_map.mp h2 with ⟨c, hc, rfl⟩
        rcases List.mem_filter.mp hc with ⟨hcmem, -⟩
        simp only [fetchCandidates] at hcmem
        rcases List.mem_map.mp hcmem with ⟨r, hr, rfl⟩
        rcases List.mem_filter.mp hr with ⟨-, hpred⟩
        simp only [rowPred, Bool.and_eq_true] at hpred
        have hexc := hpred.1.1.1.2
        simp only [List.map_cons, List.isEmpty_cons, Bool.false_or, Bool.not_eq_eq_eq_not,
          Bool.not_true, decide_eq_false_iff_not] at hexc
        simpa [mkScored, rowToCand] using hexc

/-- Witness for C2: a one-row store and a one-seed user produce a
successful response whose single result avoids the seed tconst. -/
theorem c2_witness :
    ∃ resp, recsForMe [demoRow] [⟨"tt0001", 1, [1]⟩] "u1" 25 100 1900 none (some "movie")
        none none false = Except.ok resp ∧
      ∀ item ∈ resp.results,
        item.tconst ∉ ([⟨"tt0001", 1, [1]⟩] : List Seed).map Seed.tconst := by
  have hbp : buildPrefVector [⟨"tt0001", 1, [1]⟩] = some [1] := by
    norm_num [buildPrefVector, List.range_succ]
  have hok := recsForMe_ok [demoRow] [⟨"tt0001", 1, [1]⟩] "u1" 25 100 1900 none
    (some "movie") none none false ⟨"tt0001", 1, [1]⟩ [] rfl [1] hbp rfl
  exact ⟨_, hok, c2_no_seed_in_results [demoRow] [⟨"tt0001", 1, [1]⟩] "u1" 25 100 1900
    none (some "movie") none none false _ hok⟩

/-! ### C10: every returned result has strictly positive score -/

/-- C10: the scoring loop keeps only candidates with strictly positive
cosine score, so every entry of a successful response has score > 0; and
when no candidate scores positively the endpoint still succeeds with an
empty results list rather than an error. -/
theorem c10_results_strictly_positive (db : List Row) (seeds : List Seed) (uid : String)
    (k : Nat) (mv sy : Int) (g tty la ra : Option String) (ia : Bool) :
    (∀ resp, recsForMe db seeds uid k mv sy g tty la ra ia = Except.ok resp →
      ∀ item ∈ resp.results, 0 < item.score) ∧
    (∀ s0 rest pref, seeds = s0 :: rest → buildPrefVector seeds = some pref →
      pref.isEmpty = false →
      (∀ c ∈ fetchCandidates db ⟨some sy, mv, parseCsv g, seeds.map Seed.tconst, tty,
          parseCsv la, parseCsv ra, ia⟩, cosine pref c.vec ≤ 0) →
      recsForMe db seeds uid k mv sy g tty la ra ia = Except.ok ⟨uid, 0, []⟩) := by
  constructor
  · intro resp hok item hitem
    cases seeds with
    | nil => simp [recsForMe] at hok
    | cons s0 rest =>
      cases hbp : buildPrefVector (s0 :: rest) with
      | none => simp [recsForMe, hbp] at hok
      | some pref =>
        cases pref with
        | nil => simp [recsForMe, hbp] at hok
        | cons p0 ps =>
          rw [recsForMe_ok db (s0 :: rest) uid k mv sy g tty la ra ia s0 rest rfl
            (p0 :: ps) hbp rfl] at hok
          have hres := (Except.ok.inj hok).symm
          rw [hres] at hitem
          simp only [RecsResponse.mk.injEq] at hitem
          have h1 := List.mem_of_mem_take hitem
          have h2 := (List.perm_insertionSort scoreRel _).subset h1
          simp only [scoredOf] at h2
          rcases List.mem_map.mp h2 with ⟨c, hc, rfl⟩
          rcases List.mem_filter.mp hc with ⟨-, hpos⟩
          simpa [mkScored] using of_decide_eq_true hpos
  · intro s0 rest pref hseeds hbp hpe hall
    rw [recsForMe_ok db seeds uid k mv sy g tty la ra ia s0 rest hseeds pref hbp hpe]
    have hf : (fetchCandidates db ⟨some sy, mv, parseCsv g, seeds.map Seed.tconst, tty,
        parseCsv la, parseCsv ra, ia⟩).filter (fun c => decide (0 < cosine pref c.vec)) = [] := by
      rw [List.filter_eq_nil_iff]
      intro c hc
      simpa using not_lt.mpr (hall c hc)
    simp [scoredOf, hf, sortScored]

/-- Witness for C10: with an empty candidate store the request still
succeeds and returns the empty results list. -/
theorem c10_witness :
    recsForMe [] [⟨"tt0001", 1, [1]⟩] "u1" 25 100 1900 none (some "movie")
      none none false = Except.ok ⟨"u1", 0, []⟩ := by
  have hbp : buildPrefVector [⟨"tt0001", 1, [1]⟩] = some [1] := by
    norm_num [buildPrefVector, List.range_succ]
  exact (c10_results_strictly_positive [] [⟨"tt0001", 1, [1]⟩] "u1" 25 100 1900 none
    (some "movie") none none false).2 ⟨"tt0001", 1, [1]⟩ [] [1] rfl hbp rfl
    (by simp [fetchCandidates])
